import Mathlib

/-!
Verification development for the `local_db` repository: a thin convenience
layer over SQLAlchemy/SQLite for managing local single-file databases.

The shallow embedding below models:
  * a table as a list of records in insertion order (a SQLite full scan of a
    simple table returns rows in rowid = insertion order);
  * a record as an association list from column name to value (an absent
    binding models SQL NULL);
  * the schema of a mapped table class: the column name/type pairs returned by
    `BaseTable.get_column_types`, the unique-constrained columns (primary key
    and `unique=True` columns), and the `nullable=False` columns;
  * Python exceptions as an error value returned next to the (possibly
    unchanged) table state.

Floating-point column values, datetime values, autoincrement id assignment by
the engine, and SQLite cross-type comparison ordering are not modelled; no
theorem below depends on them.
-/

namespace LocalDb

/-- A scalar value stored in a column (`Int`, `String` or `Bool` payloads;
SQL NULL is modelled as an absent binding, not as a value). -/
inductive Value where
  | intV (n : Int)
  | strV (s : String)
  | boolV (b : Bool)
deriving DecidableEq, Repr

/-- The SQLAlchemy type classes that `utils.map_dtype_to_sql` can return for
the value payloads we model (`Integer`, `String`, `Boolean`).  `BaseTable.
get_column_types` collapses parametrised types (`String(50)`) to the class,
which this enumeration mirrors. -/
inductive SqlType where
  | TInteger
  | TString
  | TBoolean
deriving DecidableEq, Repr

/-- `utils.map_dtype_to_sql` applied to `pd.Series([value]).dtype` as in
`DatabaseManager._dict_types_match`: a Python `int` has an integer dtype, a
`bool` a boolean dtype, and a `str` an object dtype (mapped to `String`). -/
def map_dtype_to_sql : Value → SqlType
  | .intV _ => .TInteger
  | .strV _ => .TString
  | .boolV _ => .TBoolean

/-- The Python exceptions that the embedded operations can raise. -/
inductive DBError where
  | valueError
  | typeError
  | integrityError
  | attributeError
  | invalidRequestError
deriving DecidableEq, Repr

/-- A record: an association list from column name to value.  Keyword
arguments in Python have distinct keys; theorems that need this assume
`Nodup` on the keys explicitly. -/
abbrev Record := List (String × Value)

/-- Attribute access on an ORM row: the value of column `c` in record `r`
(`none` models SQL NULL / an unset attribute). -/
def rlookup : Record → String → Option Value
  | [], _ => none
  | (k, v) :: rest, c => if k = c then some v else rlookup rest c

/-- `setattr(item, c, v)`: replace the binding of column `c` (or add one). -/
def rset : Record → String → Value → Record
  | [], c, v => [(c, v)]
  | (k, w) :: rest, c, v =>
    if k = c then (c, v) :: rest else (k, w) :: rset rest c v

/-- The schema of one mapped table class. -/
structure Schema where
  /-- `BaseTable.get_column_types`: column name to SQLAlchemy type class. -/
  columns : List (String × SqlType)
  /-- Columns carrying a uniqueness constraint (primary key or `unique=True`). -/
  uniqueCols : List String
  /-- Columns declared `nullable=False` that the caller must supply. -/
  notNullCols : List String
deriving Repr

/-- `BaseTable.get_column_names`. -/
def Schema.columnNames (s : Schema) : List String :=
  s.columns.map Prod.fst

/-- `DatabaseManager._dict_columns_match`: the keys of the input are a subset
of the table's column names (the Python method raises `ValueError` when this
is false; callers surface that through their own return value). -/
def dict_columns_match (schema : Schema) (data : Record) : Bool :=
  data.all (fun kv => schema.columnNames.contains kv.1)

/-- `DatabaseManager._dict_types_match`: the (column, mapped SQL type) pairs
of the input are a subset of the table's (column, type) pairs (the Python
method raises `TypeError` when this is false). -/
def dict_types_match (schema : Schema) (data : Record) : Bool :=
  data.all (fun kv => schema.columns.contains (kv.1, map_dtype_to_sql kv.2))

/-- Two records clash when some unique-constrained column holds the same
non-NULL value in both (SQLite permits repeated NULLs in unique columns). -/
def unique_clash (schema : Schema) (r s : Record) : Bool :=
  schema.uniqueCols.any (fun c =>
    match rlookup r c, rlookup s c with
    | some a, some b => decide (a = b)
    | _, _ => false)

/-- The new record clashes with some record already in the table. -/
def unique_conflict (schema : Schema) (table : List Record) (r : Record) : Bool :=
  table.any (fun s => unique_clash schema r s)

/-- A `nullable=False` column is left NULL. -/
def not_null_violation (schema : Schema) (r : Record) : Bool :=
  schema.notNullCols.any (fun c => (rlookup r c).isNone)

/-- `session.flush()` on an INSERT raises `IntegrityError` exactly when a
constraint is violated: a NOT NULL column left unset or a unique clash. -/
def flush_violation (schema : Schema) (table : List Record) (r : Record) : Bool :=
  not_null_violation schema r || unique_conflict schema table r

/-- The outcome of a mutating `DatabaseManager` call: the exception raised to
the caller (if any) and the committed table state afterwards. -/
structure OpResult where
  err : Option DBError
  table : List Record
deriving DecidableEq, Repr

/-- `DatabaseManager.add_item`.  `_dict_compatible` raises `ValueError`
(columns) or `TypeError` (types) before anything is staged; on an
`IntegrityError` from `flush` the session is rolled back and the error is
re-raised (the `commit` in the `finally` block then commits an empty
transaction, so the table is unchanged); otherwise the commit appends the
record. -/
def add_item (schema : Schema) (table : List Record) (kwargs : Record) : OpResult :=
  if dict_columns_match schema kwargs then
    if dict_types_match schema kwargs then
      if flush_violation schema table kwargs then
        ⟨some .integrityError, table⟩
      else
        ⟨none, table ++ [kwargs]⟩
    else ⟨some .typeError, table⟩
  else ⟨some .valueError, table⟩

/-- `DatabaseManager.add_multiple_items`: calls `add_item` for each entry in
order; the first exception propagates out of the loop immediately, leaving
the earlier per-entry commits in place (the trailing `session.commit()` adds
nothing). -/
def add_multiple_items (schema : Schema) (table : List Record) :
    List Record → OpResult
  | [] => ⟨none, table⟩
  | e :: rest =>
    let r := add_item schema table e
    match r.err with
    | some err => ⟨some err, r.table⟩
    | none => add_multiple_items schema r.table rest

/-- `DatabaseManager.fetch_item_by_id`: `filter_by(id=item_id).first()` over
the insertion-ordered table, `None` when nothing matches. -/
def fetch_item_by_id (table : List Record) (item_id : Value) : Option Record :=
  table.find? (fun r => decide (rlookup r "id" = some item_id))

/-- A row satisfies every `filter_by` keyword: the column holds exactly the
given (non-NULL) value. -/
def matches_attrs (r : Record) (kwargs : List (String × Value)) : Bool :=
  kwargs.all (fun kv => decide (rlookup r kv.1 = some kv.2))

/-- `DatabaseManager.fetch_items_by_attribute`: `filter_by(**kwargs)` raises
`InvalidRequestError` for a keyword that is not a mapped column; otherwise
the method returns `query.all()` — a `Query` object is always truthy, so the
`else: return None` branch is dead code and an all-miss returns `[]`. -/
def fetch_items_by_attribute (schema : Schema) (table : List Record)
    (kwargs : List (String × Value)) : Except DBError (List Record) :=
  if kwargs.all (fun kv => schema.columnNames.contains kv.1) then
    .ok (table.filter (fun r => matches_attrs r kwargs))
  else
    .error .invalidRequestError

/-- The value side of one `filter_items` entry: a scalar, or the collection
handed to the `in` operator (`c.in_(v)`). -/
inductive Operand where
  | scalar (v : Value)
  | coll (vs : List Value)
deriving DecidableEq, Repr

/-- One value of the `filters` dictionary: either a bare literal (equality is
then assumed) or an `(operator, value)` tuple. -/
inductive FilterVal where
  | lit (x : Operand)
  | pair (op : String) (x : Operand)
deriving DecidableEq, Repr

/-- The keys of `DatabaseManager._OPERATOR_MAP`. -/
def OPERATOR_KEYS : List String :=
  ["==", "!=", ">", ">=", "<", "<=", "in", "like"]

/-- Strict ordering of two same-typed scalar values, as SQLite compares two
INTEGER or two TEXT values (cross-type comparisons are not modelled and no
theorem depends on them). -/
def valLt : Value → Value → Bool
  | .intV a, .intV b => decide (a < b)
  | .strV a, .strV b => decide (a < b)
  | .boolV a, .boolV b => !a && b
  | _, _ => false

/-- SQLite `LIKE` on lowered character lists: `%` matches any run, `_` any
single character. -/
def likeAux : List Char → List Char → Bool
  | s, [] => s.isEmpty
  | s, '%' :: ps =>
    likeAux s ps ||
      (match s with
       | [] => false
       | _ :: s2 => likeAux s2 ('%' :: ps))
  | [], _ :: _ => false
  | c :: s2, p :: ps => (decide (p = '_') || decide (p = c)) && likeAux s2 ps
termination_by s p => (s.length, p.length)

/-- SQLite `LIKE` is case-insensitive for ASCII by default. -/
def likeMatch (s pat : String) : Bool :=
  likeAux (s.data.map Char.toLower) (pat.data.map Char.toLower)

/-- The predicate built by `_OPERATOR_MAP[op](column, value)`, evaluated on
one row: a NULL column value satisfies no comparison. -/
def evalCond (op : String) (cv : Option Value) (x : Operand) : Bool :=
  match cv with
  | none => false
  | some c =>
    match op, x with
    | "==", .scalar v => decide (c = v)
    | "!=", .scalar v => !(decide (c = v))
    | ">", .scalar v => valLt v c
    | ">=", .scalar v => !(valLt c v)
    | "<", .scalar v => valLt c v
    | "<=", .scalar v => !(valLt v c)
    | "in", .coll vs => vs.contains c
    | "like", .scalar (.strV pat) =>
      (match c with
       | .strV s => likeMatch s pat
       | _ => false)
    | _, _ => false

/-- Desugar one `filters` entry as the loop body of `filter_items` does: a
non-tuple value means the operator is `==`. -/
def desugar_spec : FilterVal → String × Operand
  | .lit x => ("==", x)
  | .pair op x => (op, x)

/-- The clause-building loop of `DatabaseManager.filter_items`, in dictionary
iteration order.  For each entry: a column name that is not an attribute of
the table class raises `AttributeError`; an operator missing from
`_OPERATOR_MAP` raises `ValueError` (from the `KeyError`); the first failure
wins and no query is executed. -/
def build_clauses (schema : Schema) :
    List (String × FilterVal) → Except DBError (List (String × String × Operand))
  | [] => .ok []
  | (c, spec) :: rest =>
    if schema.columnNames.contains c then
      let ov := desugar_spec spec
      if OPERATOR_KEYS.contains ov.1 then
        match build_clauses schema rest with
        | .ok cs => .ok ((c, ov.1, ov.2) :: cs)
        | .error e => .error e
      else .error .valueError
    else .error .attributeError

/-- One built clause evaluated on one row. -/
def clause_holds (r : Record) (cl : String × String × Operand) : Bool :=
  evalCond cl.2.1 (rlookup r cl.1) cl.2.2

/-- `DatabaseManager.filter_items`: build the clauses, combine them with
`and_` (all) or `or_` (any), run the query over the insertion-ordered table,
and return `None` when the result list is empty. -/
def filter_items (schema : Schema) (table : List Record)
    (filters : List (String × FilterVal)) (use_or : Bool) :
    Except DBError (Option (List Record)) :=
  match build_clauses schema filters with
  | .error e => .error e
  | .ok clauses =>
    let result := table.filter (fun r =>
      if use_or then clauses.any (clause_holds r) else clauses.all (clause_holds r))
    if result.isEmpty then .ok none else .ok (some result)

/-- `setattr` for every keyword in order, as the update loop does (the
`hasattr(item, key)` guard is always true once `_dict_columns_match` has
passed, since every mapped column is an attribute of the row). -/
def apply_updates (r : Record) (kwargs : List (String × Value)) : Record :=
  kwargs.foldl (fun acc kv => rset acc kv.1 kv.2) r

/-- `DatabaseManager.update_item`.  `_dict_columns_match` raises `ValueError`
for any key outside the schema columns; otherwise the first row with the
given id (if any) gets every keyword applied, and `flush` raises
`IntegrityError` (rolling the update back) when the updated row violates a
NOT NULL constraint or clashes with another row on a unique column. -/
def update_item (schema : Schema) (table : List Record) (item_id : Value)
    (kwargs : List (String × Value)) : OpResult :=
  if dict_columns_match schema kwargs then
    match table.findIdx? (fun r => decide (rlookup r "id" = some item_id)) with
    | none => ⟨none, table⟩
    | some i =>
      match table[i]? with
      | none => ⟨none, table⟩
      | some r =>
        let r2 := apply_updates r kwargs
        if not_null_violation schema r2
            || (table.eraseIdx i).any (fun s => unique_clash schema r2 s) then
          ⟨some .integrityError, table⟩
        else
          ⟨none, table.set i r2⟩
  else ⟨some .valueError, table⟩

/-! ### The `DatabaseFile` component and its filesystem model

The filesystem is the list of existing files as (directory, filename) pairs,
with directory strings compared verbatim (no path normalisation — every
`DatabaseFile` call uses the same directory strings it stored).  Directory
creation by the constructor has no bearing on any claim and is not modelled.
-/

/-- The list of existing files: (directory, filename) pairs. -/
abbrev FS := List (String × String)

/-- `os.path.join` for the two-argument uses in this repository (string
operations are written over the character list so that concrete instances
evaluate inside the kernel). -/
def os_path_join (d n : String) : String :=
  if d = "" then n
  else if d.data.getLast? = some '/' then d ++ n
  else d ++ "/" ++ n

/-- `os.path.abspath`: prefix the current working directory onto a relative
path (`normpath` simplification is not modelled). -/
def os_path_abspath (cwd p : String) : String :=
  if p.data.head? = some '/' then p else os_path_join cwd p

/-- `os.path.exists` on the canonical absolute path of a file. -/
def os_path_exists (cwd : String) (fs : FS) (p : String) : Bool :=
  fs.any (fun dn =>
    decide (os_path_abspath cwd (os_path_join dn.1 dn.2) = os_path_abspath cwd p))

/-- `utils.check_db_exists`: walk `os.listdir(db_dir)` comparing each entry
to `db_filename` — i.e. the pair (db_dir, db_filename) is an existing file. -/
def check_db_exists (fs : FS) (db_filename db_dir : String) : Bool :=
  decide ((db_dir, db_filename) ∈ fs)

/-- `utils.is_db_file`: the name, lowered, ends in ".db" (the
`AttributeError` branch for non-string input cannot arise for a `String`). -/
def is_db_file (filename : String) : Bool :=
  List.isSuffixOf ".db".data (filename.data.map Char.toLower)

/-- The in-memory `DatabaseFile` object. -/
structure DatabaseFile where
  name : String
  directory : String
  file_path : String
  abspath : String
deriving DecidableEq, Repr

/-- `DatabaseFile.__init__`: reject any name for which `is_db_file` is false
with `ValueError`, otherwise store the name, directory and derived paths. -/
def DatabaseFile.init (cwd name directory : String) : Except DBError DatabaseFile :=
  if is_db_file name then
    let fp := os_path_join directory name
    .ok ⟨name, directory, fp, os_path_abspath cwd fp⟩
  else .error .valueError

/-- `DatabaseFile.exists`: `check_db_exists(self.name, self.directory)`. -/
def DatabaseFile.existsb (f : DatabaseFile) (fs : FS) : Bool :=
  check_db_exists fs f.name f.directory

/-- `DatabaseFile.create`: when the file already exists only a log line is
written; otherwise `sqlite3.connect(self.file_path).close()` creates the file
at (directory, name). -/
def DatabaseFile.create (f : DatabaseFile) (fs : FS) : FS :=
  if f.existsb fs then fs
  else fs ++ [(f.directory, f.name)]

/-- `DatabaseFile.move`: a same-named file in the target directory means
nothing happens (a log line only); else if the source file exists it is
renamed into the target directory and `file_path`, `abspath` and `directory`
are updated; else nothing happens. -/
def DatabaseFile.move (f : DatabaseFile) (cwd target_directory : String)
    (fs : FS) : DatabaseFile × FS :=
  if check_db_exists fs f.name target_directory then
    (f, fs)
  else if f.existsb fs then
    let new_path := os_path_join target_directory f.name
    ({ f with
        file_path := new_path
        abspath := os_path_abspath cwd new_path
        directory := target_directory },
      (fs.filter (fun dn => decide (dn ≠ (f.directory, f.name))))
        ++ [(target_directory, f.name)])
  else
    (f, fs)

/-- `DatabaseFile.delete`: `os.remove(self.abspath)` when
`os.path.exists(self.abspath)`, otherwise only a log line — never an
exception. -/
def DatabaseFile.delete (f : DatabaseFile) (cwd : String) (fs : FS) : FS :=
  if os_path_exists cwd fs f.abspath then
    fs.filter (fun dn =>
      !(decide (os_path_abspath cwd (os_path_join dn.1 dn.2)
          = os_path_abspath cwd f.abspath)))
  else fs

/-! ### Concrete fixtures

The schema of `tests/mock_table_object.py`'s `MockTableObject`: an integer
primary key `id`, a non-nullable `name`, an integer `age`, and a unique
`email`. -/

/-- The `MockTableObject` schema from the repository's test suite. -/
def mockSchema : Schema where
  columns := [("id", .TInteger), ("name", .TString), ("age", .TInteger), ("email", .TString)]
  uniqueCols := ["id", "email"]
  notNullCols := ["name"]

/-- `TEST_ENTRY_1`, with its id made explicit. -/
def entryJohn : Record :=
  [("id", .intV 1), ("name", .strV "John Doe"), ("age", .intV 30),
    ("email", .strV "john.doe@email.com")]

/-- `TEST_ENTRY_2`, with its id made explicit. -/
def entryJane : Record :=
  [("id", .intV 2), ("name", .strV "Jane Doe"), ("age", .intV 25),
    ("email", .strV "jane.doe@email.com")]

/-- A `DatabaseFile` as built by `DatabaseFile('test.db')` from a working
directory `/root`. -/
def testFile : DatabaseFile :=
  ⟨"test.db", "data/dbs", "data/dbs/test.db", "/root/data/dbs/test.db"⟩

/-! ### Helper lemmas -/

/-- An `add_item` call that raises leaves the table exactly as it was. -/
theorem add_item_table_of_err {schema : Schema} {table : List Record}
    {kwargs : Record} {e : DBError}
    (h : (add_item schema table kwargs).err = some e) :
    (add_item schema table kwargs).table = table := by
  cases h1 : dict_columns_match schema kwargs with
  | false => simp [add_item, h1]
  | true =>
    cases h2 : dict_types_match schema kwargs with
    | false => simp [add_item, h1, h2]
    | true =>
      cases h3 : flush_violation schema table kwargs with
      | false => simp [add_item, h1, h2, h3] at h
      | true => simp [add_item, h1, h2, h3]

/-- `find?` skips a prefix in which nothing matches. -/
theorem find?_append_of_none {α : Type} {p : α → Bool} {l1 l2 : List α}
    (h : l1.find? p = none) : (l1 ++ l2).find? p = l2.find? p := by
  induction l1 with
  | nil => simp
  | cons a l ih =>
    cases hpa : p a with
    | true =>
      rw [List.find?_cons_of_pos _ hpa] at h
      exact absurd h (by simp)
    | false =>
      rw [List.find?_cons_of_neg _ (by simp [hpa])] at h
      rw [List.cons_append, List.find?_cons_of_neg _ (by simp [hpa])]
      exact ih h

/-! ### Claim theorems -/

/-- C1: for every table state and every schema-compatible record whose
unique-constrained column value already occurs in the table, `add_item`
raises `IntegrityError` to the caller after rolling back, and the table
(hence the record count) is unchanged. -/
theorem add_item_duplicate_rolls_back (schema : Schema) (table : List Record)
    (kwargs : Record)
    (hcols : dict_columns_match schema kwargs = true)
    (htypes : dict_types_match schema kwargs = true)
    (hdup : unique_conflict schema table kwargs = true) :
    add_item schema table kwargs = ⟨some .integrityError, table⟩ := by
  simp [add_item, hcols, htypes, flush_violation, hdup]

/-- Witness for C1: re-adding `TEST_ENTRY_1` on top of itself raises and
leaves the one-record table unchanged. -/
theorem add_item_duplicate_rolls_back_witness :
    (dict_columns_match mockSchema entryJohn = true
      ∧ dict_types_match mockSchema entryJohn = true
      ∧ unique_conflict mockSchema [entryJohn] entryJohn = true)
    ∧ add_item mockSchema [entryJohn] entryJohn = ⟨some .integrityError, [entryJohn]⟩ :=
  ⟨⟨by decide, by decide, by decide⟩,
    add_item_duplicate_rolls_back mockSchema [entryJohn] entryJohn
      (by decide) (by decide) (by decide)⟩

/-- C4: inserting a schema-compatible record carrying a fresh identifier and
then fetching by that identifier returns exactly the inserted record. -/
theorem add_item_fetch_by_id_roundtrip (schema : Schema) (table : List Record)
    (r : Record) (i : Value)
    (hidu : "id" ∈ schema.uniqueCols)
    (hid : rlookup r "id" = some i)
    (hcols : dict_columns_match schema r = true)
    (htypes : dict_types_match schema r = true)
    (hok : flush_violation schema table r = false) :
    (add_item schema table r).err = none
    ∧ fetch_item_by_id (add_item schema table r).table i = some r := by
  have hadd : add_item schema table r = ⟨none, table ++ [r]⟩ := by
    simp [add_item, hcols, htypes, hok]
  refine ⟨by rw [hadd], ?_⟩
  rw [hadd]
  have hnone : table.find? (fun s => decide (rlookup s "id" = some i)) = none := by
    apply List.find?_eq_none.mpr
    intro s hs
    simp only [decide_eq_true_eq]
    intro hsid
    have hconf : unique_conflict schema table r = true := by
      apply List.any_eq_true.mpr
      refine ⟨s, hs, ?_⟩
      apply List.any_eq_true.mpr
      refine ⟨"id", hidu, ?_⟩
      rw [hid, hsid]
      simp
    have : flush_violation schema table r = true := by
      simp [flush_violation, hconf]
    rw [this] at hok
    exact absurd hok (by simp)
  unfold fetch_item_by_id
  rw [find?_append_of_none hnone]
  rw [List.find?_cons_of_pos _ (by simp [hid])]

/-- Witness for C4: adding `TEST_ENTRY_2` to a table holding `TEST_ENTRY_1`
and fetching id 2 returns `TEST_ENTRY_2`. -/
theorem add_item_fetch_by_id_roundtrip_witness :
    ("id" ∈ mockSchema.uniqueCols
      ∧ rlookup entryJane "id" = some (.intV 2)
      ∧ dict_columns_match mockSchema entryJane = true
      ∧ dict_types_match mockSchema entryJane = true
      ∧ flush_violation mockSchema [entryJohn] entryJane = false)
    ∧ ((add_item mockSchema [entryJohn] entryJane).err = none
      ∧ fetch_item_by_id (add_item mockSchema [entryJohn] entryJane).table (.intV 2)
          = some entryJane) :=
  ⟨⟨by decide, by decide, by decide, by decide, by decide⟩,
    add_item_fetch_by_id_roundtrip mockSchema [entryJohn] entryJane (.intV 2)
      (by decide) (by decide) (by decide) (by decide) (by decide)⟩

/-- C10: `add_multiple_items` is not atomic — when the entries after a
conflict-free prefix hit a duplicate-key conflict, the call raises
`IntegrityError`, the prefix stays committed, and the remaining entries are
never added. -/
theorem add_multiple_items_not_atomic (schema : Schema)
    (table table2 : List Record) (pre : List Record) (bad : Record)
    (post : List Record)
    (hpre : add_multiple_items schema table pre = ⟨none, table2⟩)
    (hbad : (add_item schema table2 bad).err = some .integrityError) :
    add_multiple_items schema table (pre ++ bad :: post)
      = ⟨some .integrityError, table2⟩ := by
  induction pre generalizing table with
  | nil =>
    have htab : table = table2 := congrArg OpResult.table hpre
    subst htab
    simp only [List.nil_append, add_multiple_items, hbad]
    exact congrArg (fun t => OpResult.mk (some .integrityError) t)
      (add_item_table_of_err hbad)
  | cons a pre ih =>
    simp only [add_multiple_items] at hpre
    simp only [List.cons_append, add_multiple_items]
    cases he : (add_item schema table a).err with
    | some err =>
      rw [he] at hpre
      simp at hpre
    | none =>
      rw [he] at hpre
      exact ih _ hpre

/-- Witness for C10: with entries `[TEST_ENTRY_1, TEST_ENTRY_1, TEST_ENTRY_2]`
on an empty table, the call raises and only the first entry is committed. -/
theorem add_multiple_items_not_atomic_witness :
    (add_multiple_items mockSchema [] [entryJohn] = ⟨none, [entryJohn]⟩
      ∧ (add_item mockSchema [entryJohn] entryJohn).err = some .integrityError)
    ∧ add_multiple_items mockSchema [] ([entryJohn] ++ entryJohn :: [entryJane])
        = ⟨some .integrityError, [entryJohn]⟩ :=
  ⟨⟨by decide, by decide⟩,
    add_multiple_items_not_atomic mockSchema [] [entryJohn] [entryJohn] entryJohn
      [entryJane] (by decide) (by decide)⟩

/-- `rset` stores the new value under the written column. -/
theorem rlookup_rset_self (r : Record) (c : String) (v : Value) :
    rlookup (rset r c v) c = some v := by
  induction r with
  | nil => simp [rset, rlookup]
  | cons kv rest ih =>
    obtain ⟨k, w⟩ := kv
    by_cases hk : k = c
    · simp [rset, hk, rlookup]
    · simp [rset, hk, rlookup, ih]

/-- `rset` leaves every other column untouched. -/
theorem rlookup_rset_ne (r : Record) (c c2 : String) (v : Value) (h : c2 ≠ c) :
    rlookup (rset r c v) c2 = rlookup r c2 := by
  induction r with
  | nil => simp [rset, rlookup, Ne.symm h]
  | cons kv rest ih =>
    obtain ⟨k, w⟩ := kv
    by_cases hk : k = c
    · subst hk
      simp [rset, rlookup, Ne.symm h]
    · by_cases hk2 : k = c2
      · simp [rset, hk, rlookup, hk2, h]
      · simp [rset, hk, rlookup, hk2, ih]

/-- Unfolding one step of the `setattr` loop. -/
theorem apply_updates_cons (r : Record) (k : String) (v : Value)
    (rest : List (String × Value)) :
    apply_updates r ((k, v) :: rest) = apply_updates (rset r k v) rest := rfl

/-- A column named by no keyword keeps its value through the update loop. -/
theorem apply_updates_not_mem (kwargs : List (String × Value)) (r : Record)
    (c : String) (h : c ∉ kwargs.map Prod.fst) :
    rlookup (apply_updates r kwargs) c = rlookup r c := by
  induction kwargs generalizing r with
  | nil => rfl
  | cons kv rest ih =>
    obtain ⟨k, v⟩ := kv
    simp only [List.map_cons, List.mem_cons] at h
    push_neg at h
    rw [apply_updates_cons, ih (rset r k v) h.2]
    exact rlookup_rset_ne r k c v h.1

/-- A column named by a keyword (keys being distinct, as Python keyword
arguments are) ends up holding exactly the given value. -/
theorem apply_updates_mem (kwargs : List (String × Value)) (r : Record)
    (c : String) (v : Value)
    (hnd : (kwargs.map Prod.fst).Nodup) (h : (c, v) ∈ kwargs) :
    rlookup (apply_updates r kwargs) c = some v := by
  induction kwargs generalizing r with
  | nil => cases h
  | cons kv rest ih =>
    obtain ⟨k, w⟩ := kv
    simp only [List.map_cons, List.nodup_cons] at hnd
    rw [apply_updates_cons]
    rcases List.mem_cons.mp h with heq | hmem
    · cases heq
      rw [apply_updates_not_mem rest (rset r c v) c hnd.1]
      exact rlookup_rset_self r c v
    · exact ih (rset r k w) hnd.2 hmem

/-- Counterexample to C2 as stated: a keyword whose key is not a schema
column makes `update_item` raise `ValueError` — it is not silently
ignored. -/
theorem update_item_unknown_key_cex :
    update_item mockSchema [entryJohn] (.intV 1) [("nickname", .strV "JD")]
      = ⟨some .valueError, [entryJohn]⟩ := by decide

/-- C2 (amended): `update_item` raises `ValueError` whenever some keyword key
is not a schema column (the unknown-key `hasattr` skip is unreachable);
when every key is a schema column and the flush raises nothing, it applies
exactly the given pairs to the first record with the given id and leaves
every attribute not named in the mapping (and every other record)
unchanged. -/
theorem update_item_schema_keys (schema : Schema) (table : List Record)
    (item_id : Value) (kwargs kwargs2 : List (String × Value)) (i : Nat) (r : Record)
    (hbad : dict_columns_match schema kwargs2 = false)
    (hgood : dict_columns_match schema kwargs = true)
    (hnd : (kwargs.map Prod.fst).Nodup)
    (hfind : table.findIdx? (fun s => decide (rlookup s "id" = some item_id)) = some i)
    (hr : table[i]? = some r)
    (hok : (not_null_violation schema (apply_updates r kwargs)
        || (table.eraseIdx i).any (fun s => unique_clash schema (apply_updates r kwargs) s))
        = false) :
    update_item schema table item_id kwargs2 = ⟨some .valueError, table⟩
    ∧ update_item schema table item_id kwargs
        = ⟨none, table.set i (apply_updates r kwargs)⟩
    ∧ (∀ c v, (c, v) ∈ kwargs → rlookup (apply_updates r kwargs) c = some v)
    ∧ (∀ c, c ∉ kwargs.map Prod.fst
        → rlookup (apply_updates r kwargs) c = rlookup r c)
    ∧ (∀ j, j ≠ i → (table.set i (apply_updates r kwargs))[j]? = table[j]?) := by
  refine ⟨?_, ?_, ?_, ?_, ?_⟩
  · simp [update_item, hbad]
  · simp [update_item, hgood, hfind, hr, hok]
  · intro c v hm
    exact apply_updates_mem kwargs r c v hnd hm
  · intro c hc
    exact apply_updates_not_mem kwargs r c hc
  · intro j hj
    exact List.getElem?_set_ne (Ne.symm hj)

/-- Witness for the amended C2: updating id 1 with `TEST_ENTRY_2`'s name and
age changes exactly those two attributes. -/
theorem update_item_schema_keys_witness :
    (dict_columns_match mockSchema [("nickname", .strV "JD")] = false
      ∧ dict_columns_match mockSchema [("name", .strV "Jane Doe"), ("age", .intV 25)] = true
      ∧ ([("name", .strV "Jane Doe"), ("age", .intV 25)].map
          (Prod.fst (α := String) (β := Value))).Nodup
      ∧ [entryJohn].findIdx? (fun s => decide (rlookup s "id" = some (.intV 1))) = some 0
      ∧ [entryJohn][0]? = some entryJohn)
    ∧ update_item mockSchema [entryJohn] (.intV 1)
        [("name", .strV "Jane Doe"), ("age", .intV 25)]
        = ⟨none, [entryJohn].set 0
            (apply_updates entryJohn [("name", .strV "Jane Doe"), ("age", .intV 25)])⟩ :=
  ⟨⟨by decide, by decide, by decide, by decide, by decide⟩,
    (update_item_schema_keys mockSchema [entryJohn] (.intV 1)
      [("name", .strV "Jane Doe"), ("age", .intV 25)] [("nickname", .strV "JD")] 0 entryJohn
      (by decide) (by decide) (by decide) (by decide) (by decide) (by decide)).2.1⟩

/-- `filter_by` keywords that name a single column select by equality on it. -/
theorem matches_attrs_singleton (r : Record) (c : String) (v : Value) :
    matches_attrs r [(c, v)] = decide (rlookup r c = some v) := by
  simp [matches_attrs]

/-- C3: filtering on one schema column returns exactly the records whose
column equals the value, as a subsequence of the insertion-ordered table
(so in insertion order), and an all-miss yields the empty list, not an
error. -/
theorem fetch_items_by_attribute_exact (schema : Schema) (table : List Record)
    (c : String) (v : Value)
    (hc : schema.columnNames.contains c = true) :
    fetch_items_by_attribute schema table [(c, v)]
        = .ok (table.filter (fun r => decide (rlookup r c = some v)))
    ∧ (table.filter (fun r => decide (rlookup r c = some v))).Sublist table
    ∧ (∀ r, r ∈ table.filter (fun r => decide (rlookup r c = some v))
        ↔ r ∈ table ∧ rlookup r c = some v) := by
  refine ⟨?_, List.filter_sublist table, ?_⟩
  · have hc2 : c ∈ schema.columnNames := by simpa using hc
    simp [fetch_items_by_attribute, hc2, matches_attrs_singleton]
  · intro r
    simp [List.mem_filter]

/-- Witness for C3: filtering `age == 30` over a two-record table returns
exactly `TEST_ENTRY_1`. -/
theorem fetch_items_by_attribute_exact_witness :
    mockSchema.columnNames.contains "age" = true
    ∧ fetch_items_by_attribute mockSchema [entryJohn, entryJane] [("age", .intV 30)]
        = .ok ([entryJohn, entryJane].filter
            (fun r => decide (rlookup r "age" = some (.intV 30)))) :=
  ⟨by decide,
    (fetch_items_by_attribute_exact mockSchema [entryJohn, entryJane] "age" (.intV 30)
      (by decide)).1⟩

/-- A `filters` entry that the clause-building loop accepts: its column is a
mapped attribute and its (possibly defaulted) operator is in the map. -/
def entry_valid (schema : Schema) (e : String × FilterVal) : Bool :=
  schema.columnNames.contains e.1
    && OPERATOR_KEYS.contains (desugar_spec e.2).1

/-- Clause building walks a fully valid prefix and then behaves as on the
remaining entries alone. -/
theorem build_clauses_append (schema : Schema)
    (pre rest : List (String × FilterVal))
    (hpre : pre.all (entry_valid schema) = true) :
    build_clauses schema (pre ++ rest)
      = (build_clauses schema rest).map
          (fun cs => (pre.map (fun e => (e.1, desugar_spec e.2))) ++ cs) := by
  induction pre with
  | nil =>
    rw [List.nil_append]
    cases h : build_clauses schema rest <;> simp [Except.map]
  | cons e pre ih =>
    obtain ⟨c, spec⟩ := e
    simp only [List.all_cons, Bool.and_eq_true] at hpre
    obtain ⟨hv, hrest⟩ := hpre
    simp only [entry_valid, Bool.and_eq_true] at hv
    rw [List.cons_append]
    simp only [build_clauses, hv.1, hv.2, if_true]
    rw [ih hrest]
    cases build_clauses schema rest with
    | error e2 => rfl
    | ok cs => simp [Except.map]

/-- C5: with a fully valid prefix before the offending entry, an operator
outside `_OPERATOR_MAP` makes `filter_items` raise `ValueError` and a column
that is not a mapped attribute makes it raise `AttributeError`, both before
any query runs (`filter_items` reads but never writes the table, so the
table state is trivially unchanged); and a non-tuple value is treated
exactly as the `("==", value)` pair. -/
theorem filter_items_validation (schema : Schema) (table : List Record)
    (pre post : List (String × FilterVal)) (c1 c2 : String) (op : String)
    (x : Operand) (spec : FilterVal) (use_or : Bool)
    (hpre : pre.all (entry_valid schema) = true)
    (hc1 : schema.columnNames.contains c1 = true)
    (hop : OPERATOR_KEYS.contains op = false)
    (hc2 : schema.columnNames.contains c2 = false) :
    filter_items schema table (pre ++ (c1, .pair op x) :: post) use_or
        = .error .valueError
    ∧ filter_items schema table (pre ++ (c2, spec) :: post) use_or
        = .error .attributeError
    ∧ filter_items schema table (pre ++ (c1, .lit x) :: post) use_or
        = filter_items schema table (pre ++ (c1, .pair "==" x) :: post) use_or := by
  have hc1m : c1 ∈ schema.columnNames := by simpa using hc1
  have hopm : op ∉ OPERATOR_KEYS := by simpa using hop
  have hc2m : c2 ∉ schema.columnNames := by simpa using hc2
  refine ⟨?_, ?_, ?_⟩
  · have h1 : build_clauses schema ((c1, FilterVal.pair op x) :: post)
        = .error .valueError := by
      simp [build_clauses, hc1m, desugar_spec, hopm]
    rw [filter_items, build_clauses_append schema pre _ hpre, h1]
    rfl
  · have h2 : build_clauses schema ((c2, spec) :: post)
        = .error .attributeError := by
      simp [build_clauses, hc2m]
    rw [filter_items, build_clauses_append schema pre _ hpre, h2]
    rfl
  · have h3 : build_clauses schema ((c1, FilterVal.lit x) :: post)
        = build_clauses schema ((c1, FilterVal.pair "==" x) :: post) := rfl
    rw [filter_items, filter_items,
      build_clauses_append schema pre _ hpre,
      build_clauses_append schema pre _ hpre, h3]

/-- Witness for C5: over the mock table, `("name", ("~~", …))` raises
`ValueError`, `("bogus", 0)` raises `AttributeError`, and a bare literal
filters exactly like its `==` pair. -/
theorem filter_items_validation_witness :
    (([] : List (String × FilterVal)).all (entry_valid mockSchema) = true
      ∧ mockSchema.columnNames.contains "name" = true
      ∧ OPERATOR_KEYS.contains "~~" = false
      ∧ mockSchema.columnNames.contains "bogus" = false)
    ∧ (filter_items mockSchema [entryJohn]
          ([] ++ ("name", .pair "~~" (.scalar (.strV "John Doe"))) :: []) false
        = .error .valueError
      ∧ filter_items mockSchema [entryJohn]
          ([] ++ ("bogus", .lit (.scalar (.intV 0))) :: []) false
        = .error .attributeError
      ∧ filter_items mockSchema [entryJohn]
          ([] ++ ("name", .lit (.scalar (.strV "John Doe"))) :: []) false
        = filter_items mockSchema [entryJohn]
          ([] ++ ("name", .pair "==" (.scalar (.strV "John Doe"))) :: []) false) :=
  ⟨⟨by decide, by decide, by decide, by decide⟩,
    filter_items_validation mockSchema [entryJohn] [] []
      "name" "bogus" "~~" (.scalar (.strV "John Doe")) (.lit (.scalar (.intV 0))) false
      (by decide) (by decide) (by decide) (by decide)⟩

/-- C6: a successfully constructed `DatabaseFile` has a name `is_db_file`
accepts (ending case-insensitively in ".db"), construction with any other
name raises `ValueError`, and `move` — the only operation returning an
updated object (`create` and `delete` touch only the filesystem) — never
changes the name. -/
theorem database_file_name_invariant (cwd name directory target : String)
    (fs : FS) (f g : DatabaseFile) :
    (DatabaseFile.init cwd name directory = .ok f
      → f.name = name ∧ is_db_file f.name = true)
    ∧ (is_db_file name = false
      → DatabaseFile.init cwd name directory = .error .valueError)
    ∧ (g.move cwd target fs).1.name = g.name := by
  refine ⟨?_, ?_, ?_⟩
  · intro h
    cases hdb : is_db_file name with
    | false => simp [DatabaseFile.init, hdb] at h
    | true =>
      simp only [DatabaseFile.init, hdb, if_true, Except.ok.injEq] at h
      subst h
      exact ⟨rfl, hdb⟩
  · intro h
    simp [DatabaseFile.init, h]
  · unfold DatabaseFile.move
    split
    · rfl
    · split
      · rfl
      · rfl

/-- Witness for C6: `DatabaseFile('test.db')` succeeds with that name,
`DatabaseFile('test.txt')` raises, and moving keeps the name. -/
theorem database_file_name_invariant_witness :
    (DatabaseFile.init "/root" "test.db" "data/dbs" = .ok testFile
      ∧ (testFile.name = "test.db" ∧ is_db_file testFile.name = true))
    ∧ (is_db_file "test.txt" = false
      ∧ DatabaseFile.init "/root" "test.txt" "data/dbs" = .error .valueError) :=
  ⟨⟨rfl,
      (database_file_name_invariant "/root" "test.db" "data/dbs" "data/archive"
        [] testFile testFile).1 rfl⟩,
    ⟨by decide,
      (database_file_name_invariant "/root" "test.txt" "data/dbs" "data/archive"
        [] testFile testFile).2.1 (by decide)⟩⟩

/-- C7: after `create` the file exists; `create` on an existing file changes
nothing; hence `create` is idempotent. -/
theorem database_file_create_idempotent (f : DatabaseFile) (fs : FS) :
    f.existsb (f.create fs) = true
    ∧ (f.existsb fs = true → f.create fs = fs)
    ∧ f.create (f.create fs) = f.create fs := by
  have h1 : f.existsb (f.create fs) = true := by
    cases he : f.existsb fs with
    | true => simp [DatabaseFile.create, he]
    | false =>
      have he2 : (f.directory, f.name) ∉ fs := by
        simpa [DatabaseFile.existsb, check_db_exists] using he
      simp [DatabaseFile.create, DatabaseFile.existsb, check_db_exists, he2]
  refine ⟨h1, fun h => by simp [DatabaseFile.create, h], ?_⟩
  cases he : f.existsb fs with
  | true => simp [DatabaseFile.create, he]
  | false =>
    have he2 : (f.directory, f.name) ∉ fs := by
      simpa [DatabaseFile.existsb, check_db_exists] using he
    simp [DatabaseFile.create, DatabaseFile.existsb, check_db_exists, he2]

/-- Witness for C7: creating `test.db` in an empty filesystem makes it
exist, and creating it again is a no-op. -/
theorem database_file_create_idempotent_witness :
    (testFile.existsb (testFile.create []) = true
      ∧ testFile.create (testFile.create []) = testFile.create [])
    ∧ (testFile.existsb [("data/dbs", "test.db")] = true
      ∧ testFile.create [("data/dbs", "test.db")] = [("data/dbs", "test.db")]) :=
  ⟨⟨(database_file_create_idempotent testFile []).1,
      (database_file_create_idempotent testFile []).2.2⟩,
    ⟨by decide,
      (database_file_create_idempotent testFile [("data/dbs", "test.db")]).2.1
        (by decide)⟩⟩

/-- C8: moving to a directory that already holds a same-named file leaves
the filesystem and the object's `name`, `directory`, `file_path` and
`abspath` unchanged; only when the target is free and the source exists is
the file renamed into the target directory and are the path fields updated;
a missing source also changes nothing. -/
theorem database_file_move_frame (f : DatabaseFile) (cwd target : String)
    (fs : FS) :
    (check_db_exists fs f.name target = true → f.move cwd target fs = (f, fs))
    ∧ (check_db_exists fs f.name target = false → f.existsb fs = true →
        (f.move cwd target fs).1.name = f.name
        ∧ (f.move cwd target fs).1.directory = target
        ∧ (f.move cwd target fs).1.file_path = os_path_join target f.name
        ∧ (f.move cwd target fs).1.abspath
            = os_path_abspath cwd (os_path_join target f.name)
        ∧ (f.move cwd target fs).2
            = (fs.filter (fun dn => decide (dn ≠ (f.directory, f.name))))
                ++ [(target, f.name)])
    ∧ (check_db_exists fs f.name target = false → f.existsb fs = false →
        f.move cwd target fs = (f, fs)) := by
  refine ⟨?_, ?_, ?_⟩
  · intro h
    simp [DatabaseFile.move, h]
  · intro h1 h2
    simp [DatabaseFile.move, h1, h2]
  · intro h1 h2
    simp [DatabaseFile.move, h1, h2]

/-- Witness for C8: with `test.db` present in both `data/dbs` and the
target, `move` changes nothing; with a free target it relocates the file
and updates the path fields. -/
theorem database_file_move_frame_witness :
    (check_db_exists [("data/dbs", "test.db"), ("data/archive", "test.db")]
        "test.db" "data/archive" = true
      ∧ testFile.move "/root" "data/archive"
          [("data/dbs", "test.db"), ("data/archive", "test.db")]
        = (testFile, [("data/dbs", "test.db"), ("data/archive", "test.db")]))
    ∧ (check_db_exists [("data/dbs", "test.db")] "test.db" "data/archive" = false
      ∧ testFile.existsb [("data/dbs", "test.db")] = true
      ∧ (testFile.move "/root" "data/archive" [("data/dbs", "test.db")]).1.directory
          = "data/archive") :=
  ⟨⟨by decide,
      (database_file_move_frame testFile "/root" "data/archive"
        [("data/dbs", "test.db"), ("data/archive", "test.db")]).1 (by decide)⟩,
    ⟨by decide, by decide,
      ((database_file_move_frame testFile "/root" "data/archive"
        [("data/dbs", "test.db")]).2.1 (by decide) (by decide)).2.1⟩⟩

/-- C9: `delete` on a `DatabaseFile` whose underlying file does not exist
changes nothing on the filesystem — the code path only writes a log line and
raises no exception (the embedding has no error outcome because none is
reachable). -/
theorem database_file_delete_missing_noop (f : DatabaseFile) (cwd : String)
    (fs : FS) (h : os_path_exists cwd fs f.abspath = false) :
    f.delete cwd fs = fs := by
  simp [DatabaseFile.delete, h]

/-- Witness for C9: deleting `test.db` from a filesystem holding only an
unrelated file leaves that filesystem intact. -/
theorem database_file_delete_missing_noop_witness :
    os_path_exists "/root" [("data/dbs", "other.db")] testFile.abspath = false
    ∧ testFile.delete "/root" [("data/dbs", "other.db")]
        = [("data/dbs", "other.db")] :=
  ⟨by decide,
    database_file_delete_missing_noop testFile "/root" [("data/dbs", "other.db")]
      (by decide)⟩

end LocalDb
